import Mathlib

/-!
Shallow embedding of the asynchronous query-execution core of the Redash
command-line client (file src/unnamed/part_001: RedashClient.executeQuery,
RedashClient.executeQueryById, RedashClient.pollQueryResults), together
with proofs of the spec claims about it.

Modelling conventions:
* JavaScript numbers that the client only compares for equality or carries
  along are modelled as Int; the client never does float arithmetic on them.
* An absent object field is modelled as none of an Option.
* The HTTP backend is modelled as a record of functions giving the outcome
  of each request; a thrown JS error is the .error side of an Except.
* Each operation also returns the list of HTTP requests it issued, so that
  claims about the number of polls, retries and result fetches are statable.
* Network calls are instantaneous in the model and the loop suspension
  advances the clock by exactly the poll interval, so the elapsed time at
  the top of loop iteration k is k * interval.
-/

/-- A JSON scalar value, used for row cells that the client never inspects. -/
inductive JsonVal where
  | str (s : String)
  | num (n : Int)
  | bool (b : Bool)
  | null
deriving DecidableEq, Repr

/-- A column descriptor of the RedashQueryResult interface (part_001 lines 116-128). -/
structure RedashColumn where
  name : String
  type : String
  friendly_name : String
deriving DecidableEq, Repr

/-- The data field of a RedashQueryResult: columns and rows. -/
structure QueryResultData where
  columns : List RedashColumn
  rows : List (List (String × JsonVal))
deriving DecidableEq, Repr

/-- The RedashQueryResult interface (part_001 lines 116-128).  The client
treats the payload opaquely: it is fetched and returned, never inspected. -/
structure RedashQueryResult where
  id : Int
  query_id : Int
  data_source_id : Int
  query_hash : String
  query : String
  data : QueryResultData
  runtime : Int
  retrieved_at : String
deriving DecidableEq, Repr

/-- The value of the query_result_id field of a job, when present.  Redash
ids are numbers, but the field is untyped in the source, so strings are
modelled too; JS truthiness depends on the value. -/
inductive ResultId where
  | num (n : Int)
  | str (s : String)
deriving DecidableEq, Repr

/-- JS truthiness of a query_result_id value: the number 0 and the empty
string are falsy, everything else is truthy. -/
def ResultId.truthy : ResultId → Bool
  | .num n => n ≠ 0
  | .str s => s ≠ ""

/-- JS truthiness of the possibly-absent query_result_id field, as tested
by the source line `if (job.query_result_id)`. -/
def ridTruthy : Option ResultId → Bool
  | none => false
  | some r => r.truthy

/-- The job object of the GET /api/jobs response body (response.data.job):
status code, optional query_result_id, optional error text. -/
structure RedashJob where
  status : Int
  query_result_id : Option ResultId
  error : Option String
deriving DecidableEq, Repr

/-- Template-literal rendering of the possibly-absent error field of a job:
an absent field interpolates as the text undefined. -/
def optFieldString : Option String → String
  | some s => s
  | none => "undefined"

/-- The response data attached to an axios error, as inspected by the catch
block of pollQueryResults: absent, a string, or an object whose message
field (when it is a string) and JSON serialization are recorded. -/
inductive RespBody where
  | absent
  | str (s : String)
  | obj (message : Option String) (stringified : String)
deriving DecidableEq, Repr

/-- A thrown JS error as discriminated by the catch block of
pollQueryResults: an axios error carrying a response (status plus data), a
plain Error instance carrying a message, a thrown string, or any other
value (with its String rendering). -/
inductive JsError where
  | axios (status : Int) (data : RespBody)
  | err (message : String)
  | str (s : String)
  | other (rendering : String)
deriving DecidableEq, Repr

/-- The message of a JS error as used by `error instanceof Error ?
error.message : String(error)` in executeQuery (part_001 line 377): an
axios HTTP error has the axios-generated message naming the status code; a
plain Error has its own message; other values are rendered by String. -/
def JsError.jsMessage : JsError → String
  | .axios status _ => "Request failed with status code " ++ toString status
  | .err m => m
  | .str s => s
  | .other r => r

/-- The error message built by the catch block of pollQueryResults
(part_001 lines 423-452): a fixed prefix naming the job id, then detail
taken from the axios response data (the string itself, its message field
when truthy, or its JSON serialization; an empty or absent data falls back
to the bare HTTP status), or from the message of a plain Error, or from a
thrown string; any other thrown value adds no detail. -/
def pollCatchMessage (jobId : String) (e : JsError) : String :=
  let base := "Failed to poll for query results (job " ++ jobId ++ ")"
  match e with
  | .axios status data =>
    match data with
    | .str s =>
      if s = "" then base ++ ": HTTP " ++ toString status
      else base ++ ": " ++ s
    | .obj message stringified =>
      match message with
      | some m => if m = "" then base ++ ": " ++ stringified else base ++ ": " ++ m
      | none => base ++ ": " ++ stringified
    | .absent => base ++ ": HTTP " ++ toString status
  | .err m => base ++ ": " ++ m
  | .str s => base ++ ": " ++ s
  | .other _ => base

/-- One HTTP request issued by the client, recorded in the request trace. -/
inductive Request where
  | postQueryResults
  | postQueryById (queryId : Int)
  | getJob (jobId : String)
  | getQueryResult (rid : ResultId)
deriving DecidableEq, Repr

/-- The backend as seen by the poll loop: the outcome of the k-th GET
/api/jobs/{jobId} status fetch, and the outcome of GET
/api/query_results/{rid} for each result id.  Modelling the result fetch
as a function makes the backend stable: the same rid always yields the
same response. -/
structure PollBackend where
  jobStatus : Nat → Except JsError RedashJob
  queryResult : ResultId → Except JsError RedashQueryResult

/-- The poll loop of RedashClient.pollQueryResults (part_001 lines
398-458), from loop iteration k onwards.  The elapsed time at the top of
iteration k is k * interval (see the modelling conventions), so the while
guard `Date.now() - startTime < timeout` is k * interval < timeout.  On a
non-terminal status the loop sleeps for the interval and repeats; status 3
with a truthy query_result_id fetches and returns the result payload;
status 3 otherwise and status 4 throw, and every throw inside the loop
body is wrapped by the catch block into pollCatchMessage.  The fuel
argument is an artifact bounding the recursion; the wrapper passes
timeout + 1, which is never exhausted when interval is positive, since the
guard fails once k reaches timeout. -/
def pollFrom (be : PollBackend) (jobId : String) (timeout interval : Nat) :
    Nat → Nat → Except String RedashQueryResult × List Request
  | 0, _ =>
    (.error ("Query execution timed out after " ++ toString timeout ++ "ms"), [])
  | fuel + 1, k =>
    if k * interval < timeout then
      match be.jobStatus k with
      | .error e => (.error (pollCatchMessage jobId e), [.getJob jobId])
      | .ok job =>
        if job.status = 3 then
          match job.query_result_id with
          | some rid =>
            if rid.truthy then
              match be.queryResult rid with
              | .ok r => (.ok r, [.getJob jobId, .getQueryResult rid])
              | .error e =>
                (.error (pollCatchMessage jobId e), [.getJob jobId, .getQueryResult rid])
            else
              (.error (pollCatchMessage jobId
                (.err "Query completed but no query_result_id was provided")),
               [.getJob jobId])
          | none =>
            (.error (pollCatchMessage jobId
              (.err "Query completed but no query_result_id was provided")),
             [.getJob jobId])
        else if job.status = 4 then
          (.error (pollCatchMessage jobId
            (.err ("Query execution failed: " ++ optFieldString job.error))),
           [.getJob jobId])
        else
          let rest := pollFrom be jobId timeout interval fuel (k + 1)
          (rest.1, .getJob jobId :: rest.2)
    else
      (.error ("Query execution timed out after " ++ toString timeout ++ "ms"), [])

/-- RedashClient.pollQueryResults (part_001 lines 398-458): run the poll
loop from iteration 0. -/
def pollQueryResults (be : PollBackend) (jobId : String)
    (timeout interval : Nat) : Except String RedashQueryResult × List Request :=
  pollFrom be jobId timeout interval (timeout + 1) 0

/-- The job descriptor of a submission response ({job: {id}}). -/
structure JobRef where
  id : String
deriving DecidableEq, Repr

/-- The body of a submission response (response.data of the POST): an
optional job descriptor and an optional direct query_result payload. -/
structure SubmitResponse where
  job : Option JobRef
  query_result : Option RedashQueryResult
deriving DecidableEq, Repr

/-- A value returned by executeQuery or executeQueryById: a
RedashQueryResult, the raw submission response body returned as-is, or JS
undefined (executeQuery returns response.data.query_result even when that
field is absent). -/
inductive ExecValue where
  | result (r : RedashQueryResult)
  | rawBody (b : SubmitResponse)
  | undef
deriving DecidableEq, Repr

/-- The backend as seen by the two submission operations: the outcome of
the submission POST of each, plus the poll backend used if a job comes
back. -/
structure ExecBackend where
  submit : Except JsError SubmitResponse
  submitById : Except JsError SubmitResponse
  poll : PollBackend

/-- RedashClient.executeQuery (part_001 lines 355-379): POST the query; if
the response body has a (truthy) job field, poll that job with the default
timeout 60000 and interval 1000 and return what polling produces; else
return response.data.query_result directly.  Every error, including one
thrown by polling, is wrapped by the catch into a message embedding the
message of the underlying error. -/
def executeQuery (be : ExecBackend) : Except String ExecValue × List Request :=
  match be.submit with
  | .error e =>
    (.error ("Failed to execute query: " ++ e.jsMessage), [.postQueryResults])
  | .ok body =>
    match body.job with
    | some j =>
      let rest := pollQueryResults be.poll j.id 60000 1000
      match rest.1 with
      | .ok r => (.ok (.result r), .postQueryResults :: rest.2)
      | .error m =>
        (.error ("Failed to execute query: " ++ m), .postQueryResults :: rest.2)
    | none =>
      match body.query_result with
      | some r => (.ok (.result r), [.postQueryResults])
      | none => (.ok .undef, [.postQueryResults])

/-- RedashClient.executeQueryById (part_001 lines 382-396): POST to the
saved-query results endpoint; if the response body has a (truthy) job
field, poll that job with the defaults and return what polling produces;
else return response.data, the whole body, as-is.  Every error is replaced
by the catch with the fixed message naming only the query id. -/
def executeQueryById (be : ExecBackend) (queryId : Int) :
    Except String ExecValue × List Request :=
  match be.submitById with
  | .error _ =>
    (.error ("Failed to execute query " ++ toString queryId), [.postQueryById queryId])
  | .ok body =>
    match body.job with
    | some j =>
      let rest := pollQueryResults be.poll j.id 60000 1000
      match rest.1 with
      | .ok r => (.ok (.result r), .postQueryById queryId :: rest.2)
      | .error _ =>
        (.error ("Failed to execute query " ++ toString queryId),
         .postQueryById queryId :: rest.2)
    | none => (.ok (.rawBody body), [.postQueryById queryId])

instance {ε α : Type} [DecidableEq ε] [DecidableEq α] : DecidableEq (Except ε α) := fun x y =>
  match x, y with
  | .ok a, .ok b => if h : a = b then .isTrue (by rw [h]) else .isFalse (by simp [h])
  | .error a, .error b => if h : a = b then .isTrue (by rw [h]) else .isFalse (by simp [h])
  | .ok _, .error _ => .isFalse (by simp)
  | .error _, .ok _ => .isFalse (by simp)

/-- Auxiliary: while the backend keeps reporting non-terminal statuses (any
status code other than 3 and 4, uniformly), the poll loop just accumulates
one status request per iteration and continues. -/
theorem pollFrom_skip (be : PollBackend) (jobId : String) (timeout interval : Nat) :
    ∀ (n k fuel : Nat),
      (∀ i, k ≤ i → i < k + n → ∃ j, be.jobStatus i = .ok j ∧ j.status ≠ 3 ∧ j.status ≠ 4) →
      (k + n) * interval < timeout → n ≤ fuel →
      pollFrom be jobId timeout interval fuel k
        = ((pollFrom be jobId timeout interval (fuel - n) (k + n)).1,
           List.replicate n (Request.getJob jobId)
             ++ (pollFrom be jobId timeout interval (fuel - n) (k + n)).2) := by
  intro n
  induction n with
  | zero => intro k fuel _ _ _; simp
  | succ m ih =>
    intro k fuel hpre hwithin hfuel
    obtain ⟨f, rfl⟩ : ∃ f, fuel = f + 1 := ⟨fuel - 1, by omega⟩
    obtain ⟨j, hj, h3, h4⟩ := hpre k (le_refl k) (by omega)
    have hguard : k * interval < timeout := by
      have := Nat.mul_le_mul_right interval (show k ≤ k + (m + 1) by omega)
      omega
    have step : pollFrom be jobId timeout interval (f + 1) k
        = ((pollFrom be jobId timeout interval f (k + 1)).1,
           .getJob jobId :: (pollFrom be jobId timeout interval f (k + 1)).2) := by
      simp [pollFrom, hguard, hj, h3, h4]
    have hadd : k + 1 + m = k + (m + 1) := by omega
    rw [step, ih (k + 1) f (fun i hi hi2 => hpre i (by omega) (by omega))
      (by rw [hadd] at *; exact hwithin) (by omega)]
    simp [hadd, List.replicate_succ]

/-- C1: for every job id whose polled status sequence reaches Completed
(status 3) with a resultId present before timeoutMs elapses,
pollQueryResults hands off to the result fetch (GET
/api/query_results/{resultId}) and returns exactly the payload fetched
from that resultId. -/
theorem pollQueryResults_completed_returns_fetched_payload
    (be : PollBackend) (jobId : String) (timeout interval : Nat)
    (hpos : 0 < interval) (n : Nat) (job : RedashJob) (rid : ResultId)
    (r : RedashQueryResult)
    (hpre : ∀ i, i < n → ∃ j, be.jobStatus i = .ok j ∧ j.status ≠ 3 ∧ j.status ≠ 4)
    (hwithin : n * interval < timeout)
    (hn : be.jobStatus n = .ok job) (hst : job.status = 3)
    (hrid : job.query_result_id = some rid) (htr : rid.truthy = true)
    (hres : be.queryResult rid = .ok r) :
    pollQueryResults be jobId timeout interval
      = (.ok r, List.replicate n (Request.getJob jobId)
          ++ [Request.getJob jobId, Request.getQueryResult rid]) := by
  have hn_lt : n < timeout := by
    have h1 : n * 1 ≤ n * interval := Nat.mul_le_mul_left n hpos
    omega
  have hreach := pollFrom_skip be jobId timeout interval n 0 (timeout + 1)
    (fun i _ hi => hpre i (by omega)) (by simpa using hwithin) (by omega)
  simp only [Nat.zero_add] at hreach
  obtain ⟨f, hf⟩ : ∃ f, timeout + 1 - n = f + 1 := ⟨timeout - n, by omega⟩
  unfold pollQueryResults
  rw [hreach, hf]
  simp [pollFrom, hwithin, hn, hst, hrid, htr, hres]

/-- A concrete payload used by the witness backends. -/
def w1Result : RedashQueryResult :=
  ⟨42, 7, 5, "h", "SELECT 1", ⟨[⟨"c", "integer", "C"⟩], [[("c", .num 1)]]⟩, 2, "now"⟩

/-- A concrete backend: two non-terminal polls, then Completed with
query_result_id 42, whose fetch yields w1Result. -/
def w1BE : PollBackend where
  jobStatus := fun k => if k < 2 then .ok ⟨1, none, none⟩ else .ok ⟨3, some (.num 42), none⟩
  queryResult := fun rid => if rid = .num 42 then .ok w1Result else .error (.err "missing")

/-- Witness for C1: on w1BE the poll completes on the third status fetch
and returns the fetched payload. -/
theorem pollQueryResults_completed_returns_fetched_payload_witness :
    pollQueryResults w1BE "abc" 60000 1000
      = (.ok w1Result, List.replicate 2 (Request.getJob "abc")
          ++ [Request.getJob "abc", Request.getQueryResult (.num 42)]) :=
  pollQueryResults_completed_returns_fetched_payload w1BE "abc" 60000 1000
    (by decide) 2 ⟨3, some (.num 42), none⟩ (.num 42) w1Result
    (fun i hi => ⟨⟨1, none, none⟩, by simp [w1BE, hi], by decide, by decide⟩)
    (by decide) (by simp [w1BE]) (by decide) (by decide) (by decide)
    (by simp [w1BE, w1Result])

/-- Auxiliary: when every status fetch reports a non-terminal status (any
code other than 3 and 4), the poll loop runs until the clock guard fails
and produces the timeout error; d counts the status fetches issued, so the
elapsed time at failure is d * interval. -/
theorem pollFrom_all_nonterminal (be : PollBackend) (jobId : String)
    (timeout interval : Nat)
    (hnt : ∀ i, ∃ j, be.jobStatus i = .ok j ∧ j.status ≠ 3 ∧ j.status ≠ 4) :
    ∀ fuel k, timeout ≤ k * interval + fuel * interval →
      ∃ d, d ≤ fuel ∧
        pollFrom be jobId timeout interval fuel k
          = (.error ("Query execution timed out after " ++ toString timeout ++ "ms"),
             List.replicate d (Request.getJob jobId))
        ∧ timeout ≤ (k + d) * interval
        ∧ (d = 0 ∨ (k + d - 1) * interval < timeout) := by
  intro fuel
  induction fuel with
  | zero =>
    intro k hk
    exact ⟨0, le_refl 0, by simp [pollFrom], by simpa using hk, Or.inl rfl⟩
  | succ f ih =>
    intro k hk
    by_cases hguard : k * interval < timeout
    · obtain ⟨j, hj, h3, h4⟩ := hnt k
      have hstep : pollFrom be jobId timeout interval (f + 1) k
          = ((pollFrom be jobId timeout interval f (k + 1)).1,
             .getJob jobId :: (pollFrom be jobId timeout interval f (k + 1)).2) := by
        simp [pollFrom, hguard, hj, h3, h4]
      have harith : (k + 1) * interval + f * interval
          = k * interval + (f + 1) * interval := by ring
      obtain ⟨d, hd, heq, hlow, hup⟩ := ih (k + 1) (by omega)
      refine ⟨d + 1, by omega, ?_, ?_, ?_⟩
      · rw [hstep, heq]; simp [List.replicate_succ]
      · have h1 : k + 1 + d = k + (d + 1) := by omega
        rw [h1] at hlow; exact hlow
      · right
        rcases hup with h0 | hlt
        · subst h0; simpa using hguard
        · have h1 : k + 1 + d - 1 = k + (d + 1) - 1 := by omega
          rw [h1] at hlt; exact hlt
    · refine ⟨0, Nat.zero_le _, by simp [pollFrom, hguard], by simp; omega, Or.inl rfl⟩

/-- C2: for every job id whose status fetches never report a terminal
status (every status code other than 3 and 4 is uniformly non-terminal),
pollQueryResults fails with the timeout error, and the elapsed time at
failure (one poll interval per status fetch issued) is at least timeoutMs
and at most timeoutMs + pollIntervalMs. -/
theorem pollQueryResults_timeout_bounds
    (be : PollBackend) (jobId : String) (timeout interval : Nat)
    (hpos : 0 < interval)
    (hnt : ∀ i, ∃ j, be.jobStatus i = .ok j ∧ j.status ≠ 3 ∧ j.status ≠ 4) :
    (pollQueryResults be jobId timeout interval).1
      = .error ("Query execution timed out after " ++ toString timeout ++ "ms")
    ∧ timeout ≤ (pollQueryResults be jobId timeout interval).2.length * interval
    ∧ (pollQueryResults be jobId timeout interval).2.length * interval
        ≤ timeout + interval := by
  have hfuel : timeout ≤ 0 * interval + (timeout + 1) * interval := by
    have h1 : (timeout + 1) * 1 ≤ (timeout + 1) * interval :=
      Nat.mul_le_mul_left (timeout + 1) hpos
    rw [Nat.mul_one] at h1
    simpa using le_trans (Nat.le_succ timeout) h1
  obtain ⟨d, hd, heq, hlow, hup⟩ :=
    pollFrom_all_nonterminal be jobId timeout interval hnt (timeout + 1) 0 hfuel
  unfold pollQueryResults
  rw [heq]
  simp only [List.length_replicate]
  refine ⟨by trivial, by simpa using hlow, ?_⟩
  rcases Nat.eq_zero_or_pos d with h0 | hdpos
  · subst h0; simp
  · obtain ⟨e, rfl⟩ : ∃ e, d = e + 1 := ⟨d - 1, by omega⟩
    rcases hup with h0 | hlt
    · omega
    · have h1 : 0 + (e + 1) - 1 = e := by omega
      rw [h1] at hlt
      have h2 : (e + 1) * interval = e * interval + interval := by ring
      omega

/-- A concrete backend that always reports the non-terminal status 2 and
fails every result fetch (never consulted). -/
def w2BE : PollBackend where
  jobStatus := fun _ => .ok ⟨2, none, none⟩
  queryResult := fun _ => .error (.err "missing")

/-- Witness for C2: on the always-non-terminal backend with the default
timeout and interval, polling times out within the stated elapsed-time
bounds. -/
theorem pollQueryResults_timeout_bounds_witness :
    (pollQueryResults w2BE "j2" 60000 1000).1
      = .error ("Query execution timed out after " ++ toString 60000 ++ "ms")
    ∧ 60000 ≤ (pollQueryResults w2BE "j2" 60000 1000).2.length * 1000
    ∧ (pollQueryResults w2BE "j2" 60000 1000).2.length * 1000 ≤ 60000 + 1000 :=
  pollQueryResults_timeout_bounds w2BE "j2" 60000 1000 (by decide)
    (fun _ => ⟨⟨2, none, none⟩, rfl, by decide, by decide⟩)

/-- Auxiliary: after n non-terminal status fetches within the timeout, the
poll continues at status-fetch index n with the remaining fuel, having
logged n status requests. -/
theorem pollQueryResults_reach (be : PollBackend) (jobId : String)
    (timeout interval : Nat) (hpos : 0 < interval) (n : Nat)
    (hpre : ∀ i, i < n → ∃ j, be.jobStatus i = .ok j ∧ j.status ≠ 3 ∧ j.status ≠ 4)
    (hwithin : n * interval < timeout) :
    pollQueryResults be jobId timeout interval
      = ((pollFrom be jobId timeout interval (timeout - n + 1) n).1,
         List.replicate n (Request.getJob jobId)
           ++ (pollFrom be jobId timeout interval (timeout - n + 1) n).2) := by
  have hn_lt : n < timeout := by
    have h1 : n * 1 ≤ n * interval := Nat.mul_le_mul_left n hpos
    omega
  have hreach := pollFrom_skip be jobId timeout interval n 0 (timeout + 1)
    (fun i _ hi => hpre i (by omega)) (by simpa using hwithin) (by omega)
  simp only [Nat.zero_add] at hreach
  have hf : timeout + 1 - n = timeout - n + 1 := by omega
  rw [hf] at hreach
  exact hreach

/-- C4: for every job id whose status fetch reports Failed (status 4) with
backend error text m, pollQueryResults fails with the job-failed error and
the backend-supplied text m appears unmodified inside the raised message. -/
theorem pollQueryResults_failed_embeds_backend_error
    (be : PollBackend) (jobId : String) (timeout interval : Nat)
    (hpos : 0 < interval) (n : Nat) (job : RedashJob) (m : String)
    (hpre : ∀ i, i < n → ∃ j, be.jobStatus i = .ok j ∧ j.status ≠ 3 ∧ j.status ≠ 4)
    (hwithin : n * interval < timeout)
    (hn : be.jobStatus n = .ok job) (hst : job.status = 4)
    (herr : job.error = some m) :
    (pollQueryResults be jobId timeout interval).1
      = .error ("Failed to poll for query results (job " ++ jobId ++ ")"
          ++ ": " ++ ("Query execution failed: " ++ m)) := by
  rw [pollQueryResults_reach be jobId timeout interval hpos n hpre hwithin]
  simp [pollFrom, hwithin, hn, hst, herr, pollCatchMessage, optFieldString]

/-- A concrete backend whose first status fetch reports Failed with the
backend error text. -/
def w4BE : PollBackend where
  jobStatus := fun _ => .ok ⟨4, none, some "division by zero"⟩
  queryResult := fun _ => .error (.err "missing")

/-- Witness for C4: on w4BE the poll fails at once and the message embeds
the backend text verbatim. -/
theorem pollQueryResults_failed_embeds_backend_error_witness :
    (pollQueryResults w4BE "j4" 60000 1000).1
      = .error ("Failed to poll for query results (job " ++ "j4" ++ ")"
          ++ ": " ++ ("Query execution failed: " ++ "division by zero")) :=
  pollQueryResults_failed_embeds_backend_error w4BE "j4" 60000 1000
    (by decide) 0 ⟨4, none, some "division by zero"⟩ "division by zero"
    (fun i hi => absurd hi (Nat.not_lt_zero i)) (by decide)
    rfl (by decide) rfl

/-- C5: for every job id whose status fetch reports Completed (status 3)
with no query_result_id field, pollQueryResults raises the descriptive
protocol-violation error: it does not return a result, issues no result
fetch and no further status fetches. -/
theorem pollQueryResults_completed_without_result_id
    (be : PollBackend) (jobId : String) (timeout interval : Nat)
    (hpos : 0 < interval) (n : Nat) (job : RedashJob)
    (hpre : ∀ i, i < n → ∃ j, be.jobStatus i = .ok j ∧ j.status ≠ 3 ∧ j.status ≠ 4)
    (hwithin : n * interval < timeout)
    (hn : be.jobStatus n = .ok job) (hst : job.status = 3)
    (hrid : job.query_result_id = none) :
    pollQueryResults be jobId timeout interval
      = (.error ("Failed to poll for query results (job " ++ jobId ++ ")"
           ++ ": " ++ "Query completed but no query_result_id was provided"),
         List.replicate (n + 1) (Request.getJob jobId)) := by
  rw [pollQueryResults_reach be jobId timeout interval hpos n hpre hwithin]
  rw [List.replicate_succ' n]
  simp [pollFrom, hwithin, hn, hst, hrid, pollCatchMessage]

/-- A concrete backend reporting Completed with an absent query_result_id. -/
def w5BE : PollBackend where
  jobStatus := fun _ => .ok ⟨3, none, none⟩
  queryResult := fun _ => .error (.err "missing")

/-- Witness for C5: on w5BE the poll raises the protocol-violation message
after exactly one status fetch. -/
theorem pollQueryResults_completed_without_result_id_witness :
    pollQueryResults w5BE "j5" 60000 1000
      = (.error ("Failed to poll for query results (job " ++ "j5" ++ ")"
           ++ ": " ++ "Query completed but no query_result_id was provided"),
         List.replicate (0 + 1) (Request.getJob "j5")) :=
  pollQueryResults_completed_without_result_id w5BE "j5" 60000 1000
    (by decide) 0 ⟨3, none, none⟩
    (fun i hi => absurd hi (Nat.not_lt_zero i)) (by decide)
    rfl (by decide) rfl

/-- C9: if a status fetch reports Completed (status 3) with a
query_result_id that is present but JS-falsy (the number 0 or the empty
string), pollQueryResults treats it as absent: it raises the
protocol-violation error and never attempts to fetch that result. -/
theorem pollQueryResults_falsy_result_id_protocol_violation
    (be : PollBackend) (jobId : String) (timeout interval : Nat)
    (hpos : 0 < interval) (n : Nat) (job : RedashJob) (rid : ResultId)
    (hpre : ∀ i, i < n → ∃ j, be.jobStatus i = .ok j ∧ j.status ≠ 3 ∧ j.status ≠ 4)
    (hwithin : n * interval < timeout)
    (hn : be.jobStatus n = .ok job) (hst : job.status = 3)
    (hrid : job.query_result_id = some rid) (hfalsy : rid.truthy = false) :
    pollQueryResults be jobId timeout interval
      = (.error ("Failed to poll for query results (job " ++ jobId ++ ")"
           ++ ": " ++ "Query completed but no query_result_id was provided"),
         List.replicate (n + 1) (Request.getJob jobId)) := by
  rw [pollQueryResults_reach be jobId timeout interval hpos n hpre hwithin]
  rw [List.replicate_succ' n]
  simp [pollFrom, hwithin, hn, hst, hrid, hfalsy, pollCatchMessage]

/-- A concrete backend reporting Completed with query_result_id 0, a falsy
value. -/
def w9BE : PollBackend where
  jobStatus := fun _ => .ok ⟨3, some (.num 0), none⟩
  queryResult := fun _ => .ok w1Result

/-- Witness for C9: on w9BE the poll raises the protocol-violation message
and never issues a result fetch, even though fetching id 0 would succeed. -/
theorem pollQueryResults_falsy_result_id_protocol_violation_witness :
    pollQueryResults w9BE "j9" 60000 1000
      = (.error ("Failed to poll for query results (job " ++ "j9" ++ ")"
           ++ ": " ++ "Query completed but no query_result_id was provided"),
         List.replicate (0 + 1) (Request.getJob "j9")) :=
  pollQueryResults_falsy_result_id_protocol_violation w9BE "j9" 60000 1000
    (by decide) 0 ⟨3, some (.num 0), none⟩ (.num 0)
    (fun i hi => absurd hi (Nat.not_lt_zero i)) (by decide)
    rfl (by decide) rfl (by decide)

/-- Whether a request is a job-status poll (GET /api/jobs/...). -/
def Request.isGetJob : Request → Bool
  | .getJob _ => true
  | _ => false

/-- C6: if a poll attempt raises an unexpected error — either the
job-status fetch itself errors, or the subsequent result fetch errors —
pollQueryResults aborts at once with the single wrapped error message: the
trace shows exactly the status fetches already made plus the failing
attempt, so there is no retry, no further status fetch, and no partial
result. -/
theorem pollQueryResults_unexpected_error_aborts
    (be : PollBackend) (jobId : String) (timeout interval : Nat)
    (hpos : 0 < interval) (n : Nat) (e : JsError)
    (hpre : ∀ i, i < n → ∃ j, be.jobStatus i = .ok j ∧ j.status ≠ 3 ∧ j.status ≠ 4)
    (hwithin : n * interval < timeout)
    (herr : be.jobStatus n = .error e ∨
      ∃ job rid, be.jobStatus n = .ok job ∧ job.status = 3 ∧
        job.query_result_id = some rid ∧ rid.truthy = true ∧
        be.queryResult rid = .error e) :
    (pollQueryResults be jobId timeout interval).1 = .error (pollCatchMessage jobId e)
    ∧ (pollQueryResults be jobId timeout interval).2.countP Request.isGetJob = n + 1 := by
  rw [pollQueryResults_reach be jobId timeout interval hpos n hpre hwithin]
  rcases herr with h | ⟨job, rid, hn, hst, hrid, htr, hres⟩
  · refine ⟨by simp [pollFrom, hwithin, h], ?_⟩
    simp [pollFrom, hwithin, h, List.countP_append, List.countP_replicate,
      List.countP_cons, Request.isGetJob]
  · refine ⟨by simp [pollFrom, hwithin, hn, hst, hrid, htr, hres], ?_⟩
    simp [pollFrom, hwithin, hn, hst, hrid, htr, hres, List.countP_append,
      List.countP_replicate, List.countP_cons, Request.isGetJob]

/-- A concrete backend whose first status fetch errors with an axios error
carrying response data. -/
def w6BE : PollBackend where
  jobStatus := fun _ => .error (.axios 500 (.obj (some "internal error") "{}"))
  queryResult := fun _ => .ok w1Result

/-- Witness for C6: on w6BE the poll aborts on the first attempt with the
wrapped message and exactly one status fetch in the trace. -/
theorem pollQueryResults_unexpected_error_aborts_witness :
    (pollQueryResults w6BE "j6" 60000 1000).1
      = .error (pollCatchMessage "j6" (.axios 500 (.obj (some "internal error") "{}")))
    ∧ (pollQueryResults w6BE "j6" 60000 1000).2.countP Request.isGetJob = 0 + 1 :=
  pollQueryResults_unexpected_error_aborts w6BE "j6" 60000 1000
    (by decide) 0 (.axios 500 (.obj (some "internal error") "{}"))
    (fun i hi => absurd hi (Nat.not_lt_zero i)) (by decide)
    (Or.inl rfl)

/-- C8: with a stable backend (the backend is a fixed function, so the
same resultId always yields the same response), an invocation that
completes immediately returns exactly the payload the backend maps that
resultId to, and its trace contains the result-fetch request.  Because the
operation is a pure function of the backend, a second invocation returns a
structurally identical value and issues its own fresh result-fetch
request: nothing is cached across calls. -/
theorem pollQueryResults_result_fetch_idempotent_no_cache
    (be : PollBackend) (jobId : String) (timeout interval : Nat)
    (hpos : 0 < interval) (job : RedashJob) (rid : ResultId)
    (r : RedashQueryResult)
    (h0 : be.jobStatus 0 = .ok job) (hst : job.status = 3)
    (hrid : job.query_result_id = some rid) (htr : rid.truthy = true)
    (hres : be.queryResult rid = .ok r) (htpos : 0 < timeout) :
    pollQueryResults be jobId timeout interval
      = (.ok r, [Request.getJob jobId, Request.getQueryResult rid])
    ∧ Request.getQueryResult rid ∈ (pollQueryResults be jobId timeout interval).2 := by
  have hreach := pollQueryResults_reach be jobId timeout interval hpos 0
    (fun i hi => absurd hi (Nat.not_lt_zero i)) (by simpa using htpos)
  rw [hreach]
  refine ⟨?_, ?_⟩ <;>
    simp [pollFrom, htpos, h0, hst, hrid, htr, hres]

/-- A concrete backend that completes at once with query_result_id 9. -/
def w8BE : PollBackend where
  jobStatus := fun _ => .ok ⟨3, some (.num 9), none⟩
  queryResult := fun rid => if rid = .num 9 then .ok w1Result else .error (.err "missing")

/-- Witness for C8: on w8BE every invocation returns the payload the
stable backend assigns to id 9 and issues the result fetch. -/
theorem pollQueryResults_result_fetch_idempotent_no_cache_witness :
    pollQueryResults w8BE "j8" 60000 1000
      = (.ok w1Result, [Request.getJob "j8", Request.getQueryResult (.num 9)])
    ∧ Request.getQueryResult (.num 9) ∈ (pollQueryResults w8BE "j8" 60000 1000).2 :=
  pollQueryResults_result_fetch_idempotent_no_cache w8BE "j8" 60000 1000
    (by decide) ⟨3, some (.num 9), none⟩ (.num 9) w1Result
    rfl (by decide) rfl (by decide) (by simp [w8BE]) (by decide)

/-- Auxiliary: every message built by the catch block starts with the
fixed prefix naming the job id. -/
theorem pollCatchMessage_shape (jobId : String) (e : JsError) :
    ∃ t, pollCatchMessage jobId e
      = "Failed to poll for query results (job " ++ jobId ++ ")" ++ t := by
  cases e with
  | axios status data =>
    cases data with
    | absent =>
      exact ⟨": HTTP " ++ toString status,
        by simp [pollCatchMessage, String.append_assoc]; try rfl⟩
    | str s =>
      by_cases hs : s = ""
      · exact ⟨": HTTP " ++ toString status,
          by simp [pollCatchMessage, hs, String.append_assoc]; try rfl⟩
      · exact ⟨": " ++ s, by simp [pollCatchMessage, hs, String.append_assoc]; try rfl⟩
    | obj message stringified =>
      cases message with
      | none =>
        exact ⟨": " ++ stringified,
          by simp [pollCatchMessage, String.append_assoc]; try rfl⟩
      | some m =>
        by_cases hm : m = ""
        · exact ⟨": " ++ stringified,
            by simp [pollCatchMessage, hm, String.append_assoc]; try rfl⟩
        · exact ⟨": " ++ m, by simp [pollCatchMessage, hm, String.append_assoc]; try rfl⟩
  | err m => exact ⟨": " ++ m, by simp [pollCatchMessage, String.append_assoc]; try rfl⟩
  | str s => exact ⟨": " ++ s, by simp [pollCatchMessage, String.append_assoc]; try rfl⟩
  | other r => exact ⟨"", by simp [pollCatchMessage]⟩

/-- Auxiliary: any error produced by the poll loop is either the timeout
message or a catch-block message. -/
theorem pollFrom_error_messages (be : PollBackend) (jobId : String)
    (timeout interval : Nat) :
    ∀ fuel k msg, (pollFrom be jobId timeout interval fuel k).1 = .error msg →
      msg = "Query execution timed out after " ++ toString timeout ++ "ms"
      ∨ ∃ e, msg = pollCatchMessage jobId e := by
  intro fuel
  induction fuel with
  | zero =>
    intro k msg h
    simp [pollFrom] at h
    exact Or.inl h.symm
  | succ f ih =>
    intro k msg h
    by_cases hguard : k * interval < timeout
    · cases hjs : be.jobStatus k with
      | error e =>
        simp [pollFrom, hguard, hjs] at h
        exact Or.inr ⟨e, h.symm⟩
      | ok job =>
        by_cases h3 : job.status = 3
        · cases hrid : job.query_result_id with
          | some rid =>
            by_cases htr : rid.truthy
            · cases hqr : be.queryResult rid with
              | ok r => simp [pollFrom, hguard, hjs, h3, hrid, htr, hqr] at h
              | error e =>
                simp [pollFrom, hguard, hjs, h3, hrid, htr, hqr] at h
                exact Or.inr ⟨e, h.symm⟩
            · simp [pollFrom, hguard, hjs, h3, hrid, htr] at h
              exact Or.inr ⟨.err "Query completed but no query_result_id was provided", h.symm⟩
          | none =>
            simp [pollFrom, hguard, hjs, h3, hrid] at h
            exact Or.inr ⟨.err "Query completed but no query_result_id was provided", h.symm⟩
        · by_cases h4 : job.status = 4
          · simp [pollFrom, hguard, hjs, h3, h4] at h
            exact Or.inr ⟨.err ("Query execution failed: " ++ optFieldString job.error), h.symm⟩
          · simp [pollFrom, hguard, hjs, h3, h4] at h
            exact ih (k + 1) msg h
    · simp [pollFrom, hguard] at h
      exact Or.inl h.symm

/-- C10: every error raised by pollQueryResults other than the final
timeout error — including the job-failed and missing-result-id errors it
generates itself, which are re-caught by its own catch block — carries the
message prefix naming the job id, so the error kinds are distinguishable
only by message content. -/
theorem pollQueryResults_nontimeout_errors_have_poll_prefix
    (be : PollBackend) (jobId : String) (timeout interval : Nat) (msg : String)
    (herr : (pollQueryResults be jobId timeout interval).1 = .error msg)
    (hneq : msg ≠ "Query execution timed out after " ++ toString timeout ++ "ms") :
    ∃ t, msg = "Failed to poll for query results (job " ++ jobId ++ ")" ++ t := by
  rcases pollFrom_error_messages be jobId timeout interval (timeout + 1) 0 msg herr
    with h | ⟨e, he⟩
  · exact absurd h hneq
  · obtain ⟨t, ht⟩ := pollCatchMessage_shape jobId e
    exact ⟨t, by rw [he, ht]⟩

/-- Witness for C10: on the failing backend w4BE the raised message is not
the timeout message and carries the poll prefix. -/
theorem pollQueryResults_nontimeout_errors_have_poll_prefix_witness :
    (pollQueryResults w4BE "j4" 60000 1000).1
      = .error "Failed to poll for query results (job j4): Query execution failed: division by zero"
    ∧ ∃ t, "Failed to poll for query results (job j4): Query execution failed: division by zero"
        = "Failed to poll for query results (job " ++ "j4" ++ ")" ++ t :=
  ⟨by decide,
   pollQueryResults_nontimeout_errors_have_poll_prefix w4BE "j4" 60000 1000
     "Failed to poll for query results (job j4): Query execution failed: division by zero"
     (by decide) (by decide)⟩

/-- A submission response body carrying a direct result payload and no job
descriptor. -/
def cBody : SubmitResponse := ⟨none, some w1Result⟩

/-- An exec backend whose submissions both answer with cBody directly. -/
def cBE3 : ExecBackend := ⟨.ok cBody, .ok cBody, w2BE⟩

/-- Counterexample for C3: when the response body contains the result
payload directly, executeQuery returns the payload itself, but
executeQueryById returns the whole response body (the wrapper around the
payload), not the payload — so the two operations do not both return the
payload unchanged. -/
theorem executeQueryById_direct_result_not_unwrapped :
    (executeQueryById cBE3 7).1 = .ok (.rawBody cBody)
    ∧ (executeQueryById cBE3 7).1 ≠ .ok (.result w1Result)
    ∧ (executeQuery cBE3).1 = .ok (.result w1Result) := by
  refine ⟨rfl, ?_, rfl⟩
  intro h
  simp [executeQueryById, cBE3, cBody] at h

/-- C3 amended: for every submission whose response body contains a result
payload directly rather than a job descriptor, executeQuery returns that
payload unchanged, executeQueryById returns the entire response body
containing the payload, and both perform zero job-status polling calls
(the trace holds exactly the single submission request). -/
theorem submit_direct_result_zero_polls
    (be : ExecBackend) (body : SubmitResponse) (r : RedashQueryResult)
    (queryId : Int)
    (hb : be.submit = .ok body) (hbi : be.submitById = .ok body)
    (hjob : body.job = none) (hqr : body.query_result = some r) :
    executeQuery be = (.ok (.result r), [Request.postQueryResults])
    ∧ executeQueryById be queryId
        = (.ok (.rawBody body), [Request.postQueryById queryId]) := by
  constructor
  · simp [executeQuery, hb, hjob, hqr]
  · simp [executeQueryById, hbi, hjob]

/-- Witness for the amended C3 on the concrete direct-result backend. -/
theorem submit_direct_result_zero_polls_witness :
    executeQuery cBE3 = (.ok (.result w1Result), [Request.postQueryResults])
    ∧ executeQueryById cBE3 7 = (.ok (.rawBody cBody), [Request.postQueryById 7]) :=
  submit_direct_result_zero_polls cBE3 cBody w1Result 7 rfl rfl rfl rfl

/-- An exec backend whose submissions both fail with a non-2xx HTTP
response: status 500, response body the string backend exploded. -/
def cBE7 : ExecBackend :=
  ⟨.error (.axios 500 (.str "backend exploded")),
   .error (.axios 500 (.str "backend exploded")), w2BE⟩

/-- Counterexample for C7: on a non-2xx submission response with status
500 and body backend exploded, the error raised by executeQueryById
carries neither the status nor the body, and the error raised by
executeQuery does not carry the response body. -/
theorem submit_failure_drops_status_and_body :
    (executeQueryById cBE7 7).1 = .error "Failed to execute query 7"
    ∧ ¬ ("backend exploded".data <:+: "Failed to execute query 7".data)
    ∧ ¬ ("500".data <:+: "Failed to execute query 7".data)
    ∧ (executeQuery cBE7).1
        = .error "Failed to execute query: Request failed with status code 500"
    ∧ ¬ ("backend exploded".data
          <:+: "Failed to execute query: Request failed with status code 500".data) := by
  refine ⟨rfl, by decide, by decide, ?_, by decide⟩
  show (executeQuery cBE7).1 = _
  decide

/-- C7 amended: on a transport failure or non-2xx submission response,
executeQuery fails with an error embedding only the message of the
underlying error (for an HTTP failure, the axios message naming the status
code, without the response body), executeQueryById fails with a fixed
error naming only the query id, and neither retries the submission: the
trace holds the single submission request. -/
theorem submit_failure_error_messages
    (be : ExecBackend) (queryId : Int) (e e2 : JsError)
    (hb : be.submit = .error e) (hbi : be.submitById = .error e2) :
    executeQuery be
      = (.error ("Failed to execute query: " ++ e.jsMessage), [Request.postQueryResults])
    ∧ executeQueryById be queryId
      = (.error ("Failed to execute query " ++ toString queryId),
         [Request.postQueryById queryId]) := by
  constructor
  · simp [executeQuery, hb]
  · simp [executeQueryById, hbi]

/-- Witness for the amended C7 on the concrete failing backend. -/
theorem submit_failure_error_messages_witness :
    executeQuery cBE7
      = (.error ("Failed to execute query: "
           ++ (JsError.axios 500 (.str "backend exploded")).jsMessage),
         [Request.postQueryResults])
    ∧ executeQueryById cBE7 7
      = (.error ("Failed to execute query " ++ toString (7 : Int)),
         [Request.postQueryById 7]) :=
  submit_failure_error_messages cBE7 7
    (.axios 500 (.str "backend exploded")) (.axios 500 (.str "backend exploded"))
    rfl rfl
